import Mathlib

/-!
Verification of the forum backend (user registration, threads, comments,
replies, comment likes) against its specification.  The persistent store is
embedded as explicit Lean data (lists of rows), handlers and use cases as
pure functions over that data, and fallible operations return `Except`.
-/

namespace ForumApi

/-! ## Comment likes

The likes HTTP plugin under `src/Interfaces/http/api/likes` only registers the
handler; the like use case and repository are not in the sources. -/

/-- Row of the `comment_likes` table: a (comment id, user id) pair. -/
abbrev LikeRow := String × String

/-- Modelled from the spec: the like toggle of `LikeUnlikeCommentUseCase` and
`CommentLikeRepository` (absent from the sources).  The CommentLike table
holds one row per (comment id, user id) pair; toggling removes the row when
the user already likes the comment and inserts it otherwise.  Removal is the
SQL `DELETE WHERE comment_id = .. AND user_id = ..`, which drops every
matching row. -/
def toggleLike (rows : List LikeRow) (commentId userId : String) : List LikeRow :=
  if (commentId, userId) ∈ rows then
    rows.filter (fun r => r ≠ (commentId, userId))
  else
    rows ++ [(commentId, userId)]

/-- Number of like rows attached to one comment: the like count shown in the
thread detail view. -/
def likeCount (rows : List LikeRow) (commentId : String) : Nat :=
  (rows.filter (fun r => r.1 = commentId)).length

theorem filter_ne_cons_perm (p : LikeRow) (rows : List LikeRow)
    (hd : rows.Nodup) (hm : p ∈ rows) :
    ((p :: rows.filter (fun r => r ≠ p)) : List LikeRow).Perm rows := by
  induction rows with
  | nil => cases hm
  | cons a t ih =>
    rcases List.mem_cons.mp hm with h | h
    · subst h
      have hnt : p ∉ t := (List.nodup_cons.mp hd).1
      have hft : t.filter (fun r => r ≠ p) = t := by
        apply List.filter_eq_self.mpr
        intro b hb
        simp only [ne_eq, decide_eq_true_eq]
        intro hbp
        exact hnt (hbp ▸ hb)
      have hfc : (p :: t).filter (fun r => r ≠ p) = t.filter (fun r => r ≠ p) := by
        rw [List.filter_cons]
        simp
      rw [hfc, hft]
    · have hap : a ≠ p := by
        intro hap
        exact (List.nodup_cons.mp hd).1 (hap ▸ h)
      have hstep : (a :: t).filter (fun r => r ≠ p) = a :: t.filter (fun r => r ≠ p) := by
        simp [List.filter_cons, hap]
      rw [hstep]
      exact (List.Perm.swap a p _).trans (((ih (List.nodup_cons.mp hd).2 h)).cons a)

theorem toggleLike_of_mem (rows : List LikeRow) (c u : String)
    (hm : (c, u) ∈ rows) :
    toggleLike rows c u = rows.filter (fun r => r ≠ (c, u)) := by
  unfold toggleLike
  rw [if_pos hm]

theorem toggleLike_perm_of_mem (rows : List LikeRow) (c u : String)
    (hd : rows.Nodup) (hm : (c, u) ∈ rows) :
    (toggleLike rows c u ++ [(c, u)]).Perm rows := by
  have h1 : (toggleLike rows c u ++ [(c, u)]).Perm ((c, u) :: toggleLike rows c u) :=
    List.perm_append_comm
  refine h1.trans ?_
  rw [toggleLike_of_mem rows c u hm]
  exact filter_ne_cons_perm (c, u) rows hd hm

theorem toggleLike_toggleLike_of_not_mem (rows : List LikeRow) (c u : String)
    (hm : (c, u) ∉ rows) :
    toggleLike (toggleLike rows c u) c u = rows := by
  unfold toggleLike
  rw [if_neg hm, if_pos (by simp)]
  rw [List.filter_append]
  have h1 : rows.filter (fun r => r ≠ (c, u)) = rows := by
    apply List.filter_eq_self.mpr
    intro a ha
    simp only [ne_eq, decide_eq_true_eq]
    intro h
    exact hm (h ▸ ha)
  have h2 : [((c, u) : LikeRow)].filter (fun r => r ≠ (c, u)) = [] := by simp
  rw [h1, h2, List.append_nil]

theorem toggleLike_perm_toggleLike_of_mem (rows : List LikeRow) (c u : String)
    (hd : rows.Nodup) (hm : (c, u) ∈ rows) :
    (toggleLike (toggleLike rows c u) c u).Perm rows := by
  have hnotmem : (c, u) ∉ toggleLike rows c u := by
    rw [toggleLike_of_mem rows c u hm]
    simp
  have hdef : toggleLike (toggleLike rows c u) c u = toggleLike rows c u ++ [(c, u)] := by
    rw [toggleLike]
    rw [if_neg hnotmem]
  rw [hdef]
  exact toggleLike_perm_of_mem rows c u hd hm

theorem toggleLike_roundtrip_perm (rows : List LikeRow) (c u : String)
    (hd : rows.Nodup) :
    (toggleLike (toggleLike rows c u) c u).Perm rows := by
  by_cases hm : (c, u) ∈ rows
  · exact toggleLike_perm_toggleLike_of_mem rows c u hd hm
  · rw [toggleLike_toggleLike_of_not_mem rows c u hm]

theorem likeCount_of_perm {rows₁ rows₂ : List LikeRow} (h : rows₁.Perm rows₂)
    (cid : String) : likeCount rows₁ cid = likeCount rows₂ cid := by
  unfold likeCount
  exact (h.filter _).length_eq

theorem toggleLike_nodup (rows : List LikeRow) (c u : String) (hd : rows.Nodup) :
    (toggleLike rows c u).Nodup := by
  unfold toggleLike
  by_cases hm : (c, u) ∈ rows
  · rw [if_pos hm]
    exact hd.filter _
  · rw [if_neg hm]
    have hp : (rows ++ [(c, u)]).Perm ((c, u) :: rows) := List.perm_append_comm
    exact hp.nodup_iff.mpr (List.nodup_cons.mpr ⟨hm, hd⟩)

/-- C1: toggling a like twice on the same (comment, user) pair restores the
like count of every comment and the set of like rows; toggling once when the
user has not yet liked the comment adds exactly one to the like count of
that comment; and the at-most-one-row-per-pair invariant (no duplicate rows) is
preserved by a toggle. -/
theorem like_toggle_idempotent_and_increment (rows : List LikeRow) (c u : String)
    (hd : rows.Nodup) :
    (toggleLike rows c u).Nodup
    ∧ (∀ p : LikeRow, p ∈ toggleLike (toggleLike rows c u) c u ↔ p ∈ rows)
    ∧ (∀ cid : String, likeCount (toggleLike (toggleLike rows c u) c u) cid
        = likeCount rows cid)
    ∧ ((c, u) ∉ rows → likeCount (toggleLike rows c u) c = likeCount rows c + 1) := by
  refine ⟨toggleLike_nodup rows c u hd, ?_, ?_, ?_⟩
  · intro p
    exact (toggleLike_roundtrip_perm rows c u hd).mem_iff
  · intro cid
    exact likeCount_of_perm (toggleLike_roundtrip_perm rows c u hd) cid
  · intro hm
    unfold toggleLike likeCount
    rw [if_neg hm, List.filter_append, List.length_append]
    simp

theorem like_toggle_idempotent_and_increment_witness :
    ([(("comment-123", "user-456") : LikeRow)].Nodup)
    ∧ ((toggleLike [(("comment-123", "user-456") : LikeRow)] "comment-123" "user-789").Nodup
    ∧ (∀ p : LikeRow, p ∈ toggleLike (toggleLike [(("comment-123", "user-456") : LikeRow)] "comment-123" "user-789") "comment-123" "user-789"
        ↔ p ∈ [(("comment-123", "user-456") : LikeRow)])
    ∧ (∀ cid : String, likeCount (toggleLike (toggleLike [(("comment-123", "user-456") : LikeRow)] "comment-123" "user-789") "comment-123" "user-789") cid
        = likeCount [(("comment-123", "user-456") : LikeRow)] cid)
    ∧ (("comment-123", "user-789") ∉ [(("comment-123", "user-456") : LikeRow)] →
        likeCount (toggleLike [(("comment-123", "user-456") : LikeRow)] "comment-123" "user-789") "comment-123"
        = likeCount [(("comment-123", "user-456") : LikeRow)] "comment-123" + 1)) :=
  ⟨by decide, like_toggle_idempotent_and_increment _ "comment-123" "user-789" (by decide)⟩

/-! ## Domain errors

Error taxonomy of the spec: validation, not-found, authorization,
authentication, generic domain errors. -/

/-- Kinds of domain errors raised by use cases and repositories. -/
inductive DomainError
  | notFound (message : String)
  | authorization (message : String)
  | invariant (message : String)
  deriving DecidableEq

/-! ## Comments, replies and their deletion -/

/-- Row of the comments table: id, owning thread, owner, content and the
soft-delete flag. -/
structure CommentRow where
  id : String
  threadId : String
  owner : String
  content : String
  isDelete : Bool
  deriving DecidableEq

/-- Row of the replies table: id, owning comment, owner, content and the
soft-delete flag. -/
structure ReplyRow where
  id : String
  commentId : String
  owner : String
  content : String
  isDelete : Bool
  deriving DecidableEq

/-- Payload built by `CommentsHandler.deleteCommentHandler`
(src/Interfaces/http/api/comments/handler.js lines 34 to 40). -/
structure DeleteCommentPayload where
  id : String
  threadId : String
  userId : String
  deriving DecidableEq

/-- Modelled from the spec: `DeleteCommentUseCase` (absent from the sources).
It verifies the thread and the comment exist, then that the requesting user
owns the comment, and only then sets the soft-delete flag; the ownership
check precedes the mutation. -/
def deleteCommentExecute (threads : List String) (comments : List CommentRow)
    (p : DeleteCommentPayload) : Except DomainError (List CommentRow) :=
  if p.threadId ∈ threads then
    match comments.find? (fun c => c.id == p.id && c.threadId == p.threadId) with
    | none => .error (.notFound "komentar tidak ditemukan")
    | some c =>
      if c.owner == p.userId then
        .ok (comments.map (fun d => if d.id == p.id then { d with isDelete := true } else d))
      else
        .error (.authorization "anda tidak berhak mengakses resource ini")
  else
    .error (.notFound "thread tidak ditemukan")

/-- Comments table after a delete request: the use case result when it
succeeded, the untouched table when it raised an error. -/
def commentsAfterDelete (threads : List String) (comments : List CommentRow)
    (p : DeleteCommentPayload) : List CommentRow :=
  match deleteCommentExecute threads comments p with
  | .ok cs => cs
  | .error _ => comments

/-- Payload of the delete-reply use case: reply id, thread, owning comment
and the requesting user. -/
structure DeleteReplyPayload where
  id : String
  threadId : String
  commentId : String
  userId : String
  deriving DecidableEq

/-- Modelled from the spec: `DeleteReplyUseCase` (absent from the sources).
Same lifecycle rules as comment deletion, one level deeper: verify thread,
comment and reply exist, check ownership, then set the soft-delete flag. -/
def deleteReplyExecute (threads : List String) (comments : List CommentRow)
    (replies : List ReplyRow) (p : DeleteReplyPayload) :
    Except DomainError (List ReplyRow) :=
  if p.threadId ∈ threads then
    if comments.any (fun c => c.id == p.commentId && c.threadId == p.threadId) then
      match replies.find? (fun r => r.id == p.id && r.commentId == p.commentId) with
      | none => .error (.notFound "balasan tidak ditemukan")
      | some r =>
        if r.owner == p.userId then
          .ok (replies.map (fun d => if d.id == p.id then { d with isDelete := true } else d))
        else
          .error (.authorization "anda tidak berhak mengakses resource ini")
    else
      .error (.notFound "komentar tidak ditemukan")
  else
    .error (.notFound "thread tidak ditemukan")

/-- Replies table after a delete request: unchanged when the use case raised
an error. -/
def repliesAfterDelete (threads : List String) (comments : List CommentRow)
    (replies : List ReplyRow) (p : DeleteReplyPayload) : List ReplyRow :=
  match deleteReplyExecute threads comments replies p with
  | .ok rs => rs
  | .error _ => replies

/-- C2: a delete of a comment or a reply requested by an authenticated user
who is not its owner fails with an authorization error and leaves the stored
rows, soft-delete flags included, unchanged: the ownership check runs before
any mutation. -/
theorem delete_by_non_owner_fails_and_preserves_state
    (threads : List String) (comments : List CommentRow) (replies : List ReplyRow)
    (pc : DeleteCommentPayload) (pr : DeleteReplyPayload)
    (c : CommentRow) (r : ReplyRow)
    (hthc : pc.threadId ∈ threads)
    (hfc : comments.find? (fun d => d.id == pc.id && d.threadId == pc.threadId) = some c)
    (hoc : c.owner ≠ pc.userId)
    (hthr : pr.threadId ∈ threads)
    (hcr : comments.any (fun d => d.id == pr.commentId && d.threadId == pr.threadId) = true)
    (hfr : replies.find? (fun d => d.id == pr.id && d.commentId == pr.commentId) = some r)
    (hor : r.owner ≠ pr.userId) :
    deleteCommentExecute threads comments pc
      = .error (.authorization "anda tidak berhak mengakses resource ini")
    ∧ commentsAfterDelete threads comments pc = comments
    ∧ deleteReplyExecute threads comments replies pr
      = .error (.authorization "anda tidak berhak mengakses resource ini")
    ∧ repliesAfterDelete threads comments replies pr = replies := by
  have hexc : deleteCommentExecute threads comments pc
      = .error (.authorization "anda tidak berhak mengakses resource ini") := by
    unfold deleteCommentExecute
    rw [if_pos hthc, hfc]
    simp [hoc]
  have hexr : deleteReplyExecute threads comments replies pr
      = .error (.authorization "anda tidak berhak mengakses resource ini") := by
    unfold deleteReplyExecute
    rw [if_pos hthr, if_pos hcr, hfr]
    simp [hor]
  refine ⟨hexc, ?_, hexr, ?_⟩
  · unfold commentsAfterDelete
    rw [hexc]
  · unfold repliesAfterDelete
    rw [hexr]

theorem delete_by_non_owner_fails_and_preserves_state_witness :
    (("thread-1" : String) ∈ ["thread-1"]
    ∧ ([({ id := "comment-1", threadId := "thread-1", owner := "user-1",
           content := "a comment", isDelete := false } : CommentRow)].find?
         (fun d => d.id == "comment-1" && d.threadId == "thread-1")
        = some { id := "comment-1", threadId := "thread-1", owner := "user-1",
                 content := "a comment", isDelete := false })
    ∧ ("user-1" : String) ≠ "user-2")
    ∧ deleteCommentExecute ["thread-1"]
        [{ id := "comment-1", threadId := "thread-1", owner := "user-1",
           content := "a comment", isDelete := false }]
        { id := "comment-1", threadId := "thread-1", userId := "user-2" }
      = .error (.authorization "anda tidak berhak mengakses resource ini")
    ∧ commentsAfterDelete ["thread-1"]
        [{ id := "comment-1", threadId := "thread-1", owner := "user-1",
           content := "a comment", isDelete := false }]
        { id := "comment-1", threadId := "thread-1", userId := "user-2" }
      = [{ id := "comment-1", threadId := "thread-1", owner := "user-1",
           content := "a comment", isDelete := false }]
    ∧ deleteReplyExecute ["thread-1"]
        [{ id := "comment-1", threadId := "thread-1", owner := "user-1",
           content := "a comment", isDelete := false }]
        [{ id := "reply-1", commentId := "comment-1", owner := "user-3",
           content := "a reply", isDelete := false }]
        { id := "reply-1", threadId := "thread-1", commentId := "comment-1",
          userId := "user-2" }
      = .error (.authorization "anda tidak berhak mengakses resource ini")
    ∧ repliesAfterDelete ["thread-1"]
        [{ id := "comment-1", threadId := "thread-1", owner := "user-1",
           content := "a comment", isDelete := false }]
        [{ id := "reply-1", commentId := "comment-1", owner := "user-3",
           content := "a reply", isDelete := false }]
        { id := "reply-1", threadId := "thread-1", commentId := "comment-1",
          userId := "user-2" }
      = [{ id := "reply-1", commentId := "comment-1", owner := "user-3",
           content := "a reply", isDelete := false }] := by
  refine ⟨⟨by decide, by decide, by decide⟩, ?_⟩
  have h := delete_by_non_owner_fails_and_preserves_state
    ["thread-1"]
    [{ id := "comment-1", threadId := "thread-1", owner := "user-1",
       content := "a comment", isDelete := false }]
    [{ id := "reply-1", commentId := "comment-1", owner := "user-3",
       content := "a reply", isDelete := false }]
    { id := "comment-1", threadId := "thread-1", userId := "user-2" }
    { id := "reply-1", threadId := "thread-1", commentId := "comment-1",
      userId := "user-2" }
    { id := "comment-1", threadId := "thread-1", owner := "user-1",
      content := "a comment", isDelete := false }
    { id := "reply-1", commentId := "comment-1", owner := "user-3",
      content := "a reply", isDelete := false }
    (by decide) (by decide) (by decide) (by decide) (by decide) (by decide)
    (by decide)
  exact h

/-! ## HTTP layer: comments handler and JWT strategy

`CommentsHandler` is embedded from src/Interfaces/http/api/comments/handler.js;
request bodies are JS objects embedded as finite maps from field names to
optional string values, and the Hapi response toolkit as a record with the
frameworks default status code 200. -/

/-- Decoded JWT payload: the token carries the user id. -/
structure TokenPayload where
  id : String

/-- Decoded part of the JWT artifacts Hapi hands to the validate function. -/
structure JwtDecoded where
  payload : TokenPayload

/-- Artifacts of a verified bearer token. -/
structure JwtArtifacts where
  decoded : JwtDecoded

/-- Credentials attached to an authenticated request. -/
structure AuthCredentials where
  id : String

/-- Result of the auth strategy validate function. -/
structure ValidateResult where
  isValid : Bool
  credentials : AuthCredentials

/-- Validate function of the `forumapi_jwt` strategy (createServer.js, quoted
in TESTING_SOLUTIONS.md lines 96 to 103): always valid once the signature
check passed, with credentials id taken from the decoded token payload. -/
def forumapiJwtValidate (artifacts : JwtArtifacts) : ValidateResult :=
  { isValid := true
    credentials := { id := artifacts.decoded.payload.id } }

/-- Auth part of a request: the credentials set by the strategy. -/
structure RequestAuth where
  credentials : AuthCredentials

/-- Route params of the comment routes: thread id and comment id. -/
structure CommentRouteParams where
  threadId : String
  commentId : String

/-- Request seen by the comments handler: JSON body as a finite map, route
params and the auth credentials. -/
structure CommentRequest where
  payload : String → Option String
  params : CommentRouteParams
  auth : RequestAuth

/-- JSON response envelope: status plus optional data. -/
structure ResponseBody (α : Type) where
  status : String
  data : Option α
  deriving DecidableEq

/-- HTTP response: status code and body. -/
structure HttpResponse (α : Type) where
  statusCode : Nat
  body : ResponseBody α
  deriving DecidableEq

/-- Embedding of `h.response(body)`: Hapi gives a fresh response the default
status code 200. -/
def hResponse {α : Type} (body : ResponseBody α) : HttpResponse α :=
  { statusCode := 200, body := body }

/-- Embedding of `response.code(c)`. -/
def HttpResponse.withCode {α : Type} (r : HttpResponse α) (c : Nat) : HttpResponse α :=
  { r with statusCode := c }

/-- Use-case payload built by `postCommentHandler` (handler.js lines 13 to
17): the spread of the request body, then `threadId` from the route params
and `userId` from the verified credentials; fields written after the spread
overwrite same-named body fields. -/
def postCommentPayload (request : CommentRequest) : String → Option String :=
  fun key =>
    if key = "threadId" then some request.params.threadId
    else if key = "userId" then some request.auth.credentials.id
    else request.payload key

/-- Embedding of `CommentsHandler.postCommentHandler` (handler.js lines 12 to
31), abstract in the use case it resolves from the container: builds the
payload, executes the use case, answers 201 with the added comment. -/
def postCommentHandler {α : Type} (executeAdd : (String → Option String) → α)
    (request : CommentRequest) : HttpResponse α :=
  let addedComment := executeAdd (postCommentPayload request)
  (hResponse { status := "success", data := some addedComment }).withCode 201

/-- Use-case payload built by `deleteCommentHandler` (handler.js lines 34 to
40): comment id and thread id from the route params, user id from the
verified credentials. -/
def deleteCommentHandlerPayload (request : CommentRequest) : DeleteCommentPayload :=
  { id := request.params.commentId
    threadId := request.params.threadId
    userId := request.auth.credentials.id }

/-- Embedding of `CommentsHandler.deleteCommentHandler` (handler.js lines 33
to 48): executes the delete use case and returns the plain success object,
which Hapi serves with the default status code 200. -/
def deleteCommentHandler {α : Type} (executeDelete : DeleteCommentPayload → α)
    (request : CommentRequest) : HttpResponse Unit :=
  let _ := executeDelete (deleteCommentHandlerPayload request)
  hResponse { status := "success", data := none }

/-- C8: a successful comment creation answers status code 201 with body
status success and the added comment in the data field, and a successful
comment deletion answers status code 200 with body status success. -/
theorem success_status_codes {α : Type}
    (executeAdd : (String → Option String) → α)
    (executeDelete : DeleteCommentPayload → α)
    (request : CommentRequest) :
    (postCommentHandler executeAdd request).statusCode = 201
    ∧ (postCommentHandler executeAdd request).body.status = "success"
    ∧ (postCommentHandler executeAdd request).body.data
        = some (executeAdd (postCommentPayload request))
    ∧ (deleteCommentHandler executeDelete request).statusCode = 200
    ∧ (deleteCommentHandler executeDelete request).body.status = "success" :=
  ⟨rfl, rfl, rfl, rfl, rfl⟩

/-- C9: on every authenticated comment route, the user id placed in the
use-case payload, used for ownership checks and persisted as owner, is
exactly the id field of the decoded payload of the verified bearer token. -/
theorem acting_user_is_decoded_token_id
    (artifacts : JwtArtifacts) (body : String → Option String)
    (params : CommentRouteParams) :
    (forumapiJwtValidate artifacts).credentials.id = artifacts.decoded.payload.id
    ∧ postCommentPayload
        { payload := body, params := params
          auth := { credentials := (forumapiJwtValidate artifacts).credentials } }
        "userId"
      = some artifacts.decoded.payload.id
    ∧ (deleteCommentHandlerPayload
        { payload := body, params := params
          auth := { credentials := (forumapiJwtValidate artifacts).credentials } }).userId
      = artifacts.decoded.payload.id :=
  ⟨rfl, rfl, rfl⟩

/-- C10: two POST-comment requests with the same route params and the same
credentials whose bodies differ only in client-supplied threadId or userId
fields yield the same use-case payload: the route threadId and the verified
userId overwrite any same-named body fields. -/
theorem client_supplied_ids_cannot_influence_payload
    (body₁ body₂ : String → Option String)
    (params : CommentRouteParams) (auth : RequestAuth)
    (hagree : ∀ k, k ≠ "threadId" → k ≠ "userId" → body₁ k = body₂ k) :
    postCommentPayload { payload := body₁, params := params, auth := auth }
      = postCommentPayload { payload := body₂, params := params, auth := auth } := by
  funext k
  unfold postCommentPayload
  by_cases h1 : k = "threadId"
  · rw [if_pos h1, if_pos h1]
  · rw [if_neg h1, if_neg h1]
    by_cases h2 : k = "userId"
    · rw [if_pos h2, if_pos h2]
    · rw [if_neg h2, if_neg h2]
      exact hagree k h1 h2

theorem client_supplied_ids_cannot_influence_payload_witness :
    (∀ k, k ≠ "threadId" → k ≠ "userId" →
      (fun key => if key = "threadId" then some "thread-forged" else
        if key = "userId" then some "user-forged" else
        if key = "content" then some "hello" else (none : Option String)) k
      = (fun key => if key = "content" then some "hello" else (none : Option String)) k)
    ∧ postCommentPayload
        { payload := fun key => if key = "threadId" then some "thread-forged" else
            if key = "userId" then some "user-forged" else
            if key = "content" then some "hello" else none
          params := { threadId := "thread-1", commentId := "comment-1" }
          auth := { credentials := { id := "user-1" } } }
      = postCommentPayload
        { payload := fun key => if key = "content" then some "hello" else none
          params := { threadId := "thread-1", commentId := "comment-1" }
          auth := { credentials := { id := "user-1" } } } := by
  have hagree : ∀ k, k ≠ "threadId" → k ≠ "userId" →
      (fun key => if key = "threadId" then some "thread-forged" else
        if key = "userId" then some "user-forged" else
        if key = "content" then some "hello" else (none : Option String)) k
      = (fun key => if key = "content" then some "hello" else (none : Option String)) k := by
    intro k h1 h2
    simp only [if_neg h1, if_neg h2]
  exact ⟨hagree, client_supplied_ids_cannot_influence_payload _ _
    { threadId := "thread-1", commentId := "comment-1" }
    { credentials := { id := "user-1" } } hagree⟩

/-! ## User registration: entity validation and AddUserUseCase -/

/-- Primitive JS value held by a field of a raw request payload. -/
inductive JsVal
  | str (s : String)
  | num (n : Int)
  | boolean (b : Bool)
  deriving DecidableEq

/-- Raw payload handed to the RegisterUser entity: each required field may be
absent or hold a JS value of any primitive type. -/
structure RawRegisterUser where
  username : Option JsVal
  password : Option JsVal
  fullname : Option JsVal
  deriving DecidableEq

/-- Normalized RegisterUser entity: the three validated string fields. -/
structure RegisterUser where
  username : String
  password : String
  fullname : String
  deriving DecidableEq

/-- Modelled from the spec: the `RegisterUser` entity constructor and its
payload verification (absent from the sources).  It first checks every
required key is present, failing with the error code
REGISTER_USER.NOT_CONTAIN_NEEDED_PROPERTY (the code attested by the
DomainErrorTranslator table), then checks each value is a string, failing
with REGISTER_USER.NOT_MEET_DATA_TYPE_SPECIFICATION; no default is invented
for a missing field. -/
def mkRegisterUser (p : RawRegisterUser) : Except String RegisterUser :=
  match p.username, p.password, p.fullname with
  | some u, some pw, some fn =>
    match u, pw, fn with
    | .str us, .str ps, .str fs =>
      .ok { username := us, password := ps, fullname := fs }
    | _, _, _ => .error "REGISTER_USER.NOT_MEET_DATA_TYPE_SPECIFICATION"
  | _, _, _ => .error "REGISTER_USER.NOT_CONTAIN_NEEDED_PROPERTY"

/-- Row of the users table. -/
structure User where
  id : String
  username : String
  password : String
  fullname : String
  deriving DecidableEq

/-- Registered user view returned by addUser: id, username and fullname. -/
structure RegisteredUser where
  id : String
  username : String
  fullname : String
  deriving DecidableEq

/-- Modelled from the spec: `UserRepository.verifyAvailableUsername` (absent
from the sources): fails with the username-not-available domain error when a
user row with that username already exists. -/
def verifyAvailableUsername (users : List User) (username : String) :
    Except String Unit :=
  if users.any (fun u => u.username == username) then
    .error "username not available"
  else
    .ok ()

/-- Modelled from the spec: `UserRepository.addUser` (absent from the
sources): inserts the user row under a generated id and returns the
registered user as id, username and fullname. -/
def addUser (genId : String) (users : List User) (ru : RegisterUser) :
    List User × RegisteredUser :=
  (users ++ [{ id := genId, username := ru.username, password := ru.password,
               fullname := ru.fullname }],
   { id := genId, username := ru.username, fullname := ru.fullname })

/-- Embedding of `AddUserUseCase.execute` (REVIEW_RESULTS.md lines 64 to 76):
construct the RegisterUser entity, verify the username is available, then
reassign the entity password field to its hash and add the user.  The result
carries the users table, the registered user and the entity as the use case
left it, so the password reassignment of line 73 is observable; every error
from a step is returned unchanged. -/
def addUserExecute (hash : String → String) (genId : String) (users : List User)
    (payload : RawRegisterUser) :
    Except String (List User × RegisteredUser × RegisterUser) :=
  match mkRegisterUser payload with
  | .error e => .error e
  | .ok registerUser =>
    match verifyAvailableUsername users registerUser.username with
    | .error e => .error e
    | .ok _ =>
      let registerUser2 : RegisterUser :=
        { registerUser with password := hash registerUser.password }
      let r := addUser genId users registerUser2
      .ok (r.1, r.2, registerUser2)

/-- Users table after a registration request: unchanged when the use case
raised an error. -/
def usersAfterAdd (hash : String → String) (genId : String) (users : List User)
    (payload : RawRegisterUser) : List User :=
  match addUserExecute hash genId users payload with
  | .ok (us, _, _) => us
  | .error _ => users

/-- C3: with a well-formed registration payload, a username already present
in the users table makes `AddUserUseCase.execute` fail with the
username-not-available domain error before any row is added, while a fresh
username yields the added row with hashed password and the registered user
structure id, username, fullname. -/
theorem add_user_availability_and_success
    (hash : String → String) (genId : String) (users : List User)
    (payload : RawRegisterUser) (ru : RegisterUser)
    (hmk : mkRegisterUser payload = .ok ru) :
    ((∃ u ∈ users, u.username = ru.username) →
      addUserExecute hash genId users payload = .error "username not available"
      ∧ usersAfterAdd hash genId users payload = users)
    ∧ ((∀ u ∈ users, u.username ≠ ru.username) →
      addUserExecute hash genId users payload
        = .ok (users ++ [{ id := genId, username := ru.username,
                           password := hash ru.password, fullname := ru.fullname }],
               { id := genId, username := ru.username, fullname := ru.fullname },
               { username := ru.username, password := hash ru.password,
                 fullname := ru.fullname })) := by
  constructor
  · intro htaken
    have hany : users.any (fun u => u.username == ru.username) = true := by
      rw [List.any_eq_true]
      obtain ⟨u, hu, he⟩ := htaken
      exact ⟨u, hu, by simpa using he⟩
    have hverify : verifyAvailableUsername users ru.username = .error "username not available" := by
      unfold verifyAvailableUsername
      rw [if_pos hany]
    have hexec : addUserExecute hash genId users payload = .error "username not available" := by
      unfold addUserExecute
      simp only [hmk, hverify]
    refine ⟨hexec, ?_⟩
    unfold usersAfterAdd
    rw [hexec]
  · intro hfresh
    have hany : users.any (fun u => u.username == ru.username) = false := by
      rw [List.any_eq_false]
      intro u hu
      simpa using hfresh u hu
    have hverify : verifyAvailableUsername users ru.username = .ok () := by
      unfold verifyAvailableUsername
      rw [if_neg (by simp [hany])]
    unfold addUserExecute
    simp only [hmk, hverify]
    rfl

/-- Concrete registration payload used by the witnesses. -/
def samplePayload : RawRegisterUser :=
  { username := some (.str "dicoding"), password := some (.str "secret"), fullname := some (.str "Dicoding Indonesia") }

/-- Entity the sample payload validates to. -/
def sampleEntity : RegisterUser :=
  { username := "dicoding", password := "secret", fullname := "Dicoding Indonesia" }

/-- Users table holding the sample username already. -/
def sampleUsers : List User :=
  [{ id := "user-1", username := "dicoding", password := "p", fullname := "f" }]

/-- Concrete stand-in for the bcrypt hash in the witnesses. -/
def sampleHash : String → String := fun s => String.append "hashed:" s

theorem add_user_availability_and_success_witness :
    (mkRegisterUser samplePayload = .ok sampleEntity)
    ∧ ((∃ u ∈ sampleUsers, u.username = sampleEntity.username) →
      addUserExecute sampleHash "user-2" sampleUsers samplePayload = .error "username not available"
      ∧ usersAfterAdd sampleHash "user-2" sampleUsers samplePayload = sampleUsers)
    ∧ ((∀ u ∈ sampleUsers, u.username ≠ sampleEntity.username) →
      addUserExecute sampleHash "user-2" sampleUsers samplePayload
        = .ok (sampleUsers ++ [{ id := "user-2", username := sampleEntity.username, password := sampleHash sampleEntity.password, fullname := sampleEntity.fullname }],
               { id := "user-2", username := sampleEntity.username, fullname := sampleEntity.fullname },
               { username := sampleEntity.username, password := sampleHash sampleEntity.password, fullname := sampleEntity.fullname })) :=
  ⟨rfl, add_user_availability_and_success sampleHash "user-2" sampleUsers samplePayload sampleEntity rfl⟩

/-- C4: a raw payload missing a required field fails entity construction with
the NOT_CONTAIN_NEEDED_PROPERTY validation error kind, a payload whose fields
are all present but one of the wrong primitive type fails with the
NOT_MEET_DATA_TYPE_SPECIFICATION kind, and no default is invented: on
success every declared field comes verbatim from the payload. -/
theorem entity_validation_errors (p : RawRegisterUser) :
    ((p.username = none ∨ p.password = none ∨ p.fullname = none) →
      mkRegisterUser p = .error "REGISTER_USER.NOT_CONTAIN_NEEDED_PROPERTY")
    ∧ (∀ u pw fn, p.username = some u → p.password = some pw → p.fullname = some fn →
      ((∀ s, u ≠ .str s) ∨ (∀ s, pw ≠ .str s) ∨ (∀ s, fn ≠ .str s)) →
      mkRegisterUser p = .error "REGISTER_USER.NOT_MEET_DATA_TYPE_SPECIFICATION")
    ∧ (∀ ru, mkRegisterUser p = .ok ru →
      p.username = some (.str ru.username) ∧ p.password = some (.str ru.password)
      ∧ p.fullname = some (.str ru.fullname)) := by
  obtain ⟨ou, op, og⟩ := p
  refine ⟨?_, ?_, ?_⟩
  · rintro (h | h | h) <;> subst h
    · rfl
    · cases ou <;> rfl
    · cases ou <;> cases op <;> rfl
  · intro u pw fn hu hp hf hwrong
    subst hu
    subst hp
    subst hf
    rcases hwrong with h | h | h <;>
      cases u <;> cases pw <;> cases fn <;> first | rfl | exact absurd rfl (h _)
  · intro ru h
    cases ou with
    | none => exact Except.noConfusion h
    | some u =>
      cases op with
      | none => exact Except.noConfusion h
      | some pw =>
        cases og with
        | none => exact Except.noConfusion h
        | some fn =>
          cases u with
          | num n => exact Except.noConfusion h
          | boolean b => exact Except.noConfusion h
          | str us =>
            cases pw with
            | num n => exact Except.noConfusion h
            | boolean b => exact Except.noConfusion h
            | str ps =>
              cases fn with
              | num n => exact Except.noConfusion h
              | boolean b => exact Except.noConfusion h
              | str fs =>
                have heq : ({ username := us, password := ps, fullname := fs } : RegisterUser) = ru := by
                  injection h
                refine ⟨?_, ?_, ?_⟩ <;> rw [← heq]

theorem entity_validation_errors_witness :
    (({ username := none, password := some (.str "secret"), fullname := some (.str "D") } : RawRegisterUser).username = none
      ∨ ({ username := none, password := some (.str "secret"), fullname := some (.str "D") } : RawRegisterUser).password = none
      ∨ ({ username := none, password := some (.str "secret"), fullname := some (.str "D") } : RawRegisterUser).fullname = none)
    ∧ mkRegisterUser { username := none, password := some (.str "secret"), fullname := some (.str "D") }
      = .error "REGISTER_USER.NOT_CONTAIN_NEEDED_PROPERTY" :=
  ⟨Or.inl rfl,
    (entity_validation_errors { username := none, password := some (.str "secret"), fullname := some (.str "D") }).1 (Or.inl rfl)⟩

/-- C5 counterexample: entity instances are not immutable after construction.
On the concrete payload with password "secret", `AddUserUseCase.execute`
(REVIEW_RESULTS.md line 73) reassigns the password field of the constructed
RegisterUser entity: the field read after the use case ran differs from the
field read right after construction. -/
theorem entity_immutability_counterexample :
    (mkRegisterUser samplePayload).toOption.map RegisterUser.password = some "secret"
    ∧ (addUserExecute sampleHash "user-123" [] samplePayload).toOption.map
        (fun r => r.2.2.password) = some "hashed:secret"
    ∧ ¬ ((addUserExecute sampleHash "user-123" [] samplePayload).toOption.map
          (fun r => r.2.2.password)
        = (mkRegisterUser samplePayload).toOption.map RegisterUser.password) :=
  ⟨rfl, rfl, by decide⟩

/-- C5 amended: after successful construction an entity exposes exactly the
declared fields, and no operation reassigns them, except that
`AddUserUseCase.execute` reassigns the RegisterUser password field to its
hashed value before persisting; the username and fullname fields are never
reassigned. -/
theorem entity_fields_immutable_except_password_hash
    (hash : String → String) (genId : String) (users : List User)
    (payload : RawRegisterUser) (ru : RegisterUser)
    (out : List User × RegisteredUser × RegisterUser)
    (hmk : mkRegisterUser payload = .ok ru)
    (hex : addUserExecute hash genId users payload = .ok out) :
    out.2.2.username = ru.username
    ∧ out.2.2.fullname = ru.fullname
    ∧ out.2.2.password = hash ru.password := by
  unfold addUserExecute at hex
  simp only [hmk] at hex
  cases hverify : verifyAvailableUsername users ru.username with
  | error e =>
    rw [hverify] at hex
    exact Except.noConfusion hex
  | ok u =>
    rw [hverify] at hex
    injection hex with h
    rw [← h]
    exact ⟨rfl, rfl, rfl⟩

/-- Concrete result of the sample registration run. -/
def sampleOut : List User × RegisteredUser × RegisterUser :=
  ([{ id := "user-9", username := "dicoding", password := "hashed:secret", fullname := "Dicoding Indonesia" }],
   { id := "user-9", username := "dicoding", fullname := "Dicoding Indonesia" },
   { username := "dicoding", password := "hashed:secret", fullname := "Dicoding Indonesia" })

theorem entity_fields_immutable_except_password_hash_witness :
    (mkRegisterUser samplePayload = .ok sampleEntity
    ∧ addUserExecute sampleHash "user-9" [] samplePayload = .ok sampleOut)
    ∧ (sampleOut.2.2.username = sampleEntity.username
    ∧ sampleOut.2.2.fullname = sampleEntity.fullname
    ∧ sampleOut.2.2.password = sampleHash sampleEntity.password) :=
  ⟨⟨rfl, rfl⟩, entity_fields_immutable_except_password_hash sampleHash "user-9" []
    samplePayload sampleEntity sampleOut rfl rfl⟩

/-! ## Error translation at the HTTP boundary -/

/-- Error object reaching the HTTP layer: one of the client error classes
carrying its own HTTP status code, or a plain Error whose message is a
domain error code. -/
inductive AppError
  | clientError (statusCode : Nat) (message : String)
  | plainError (message : String)
  deriving DecidableEq

/-- Translation table of `DomainErrorTranslator` (quoted in part in
REVIEW_RESULTS.md lines 85 to 89): domain error codes map to invariant
client errors with status 400; the sources quote two entries and elide the
rest. -/
def translations (code : String) : Option (Nat × String) :=
  if code = "REGISTER_USER.NOT_CONTAIN_NEEDED_PROPERTY" then
    some (400, "tidak dapat membuat user baru karena properti yang dibutuhkan tidak ada")
  else if code = "REGISTER_USER.NOT_MEET_DATA_TYPE_SPECIFICATION" then
    some (400, "tidak dapat membuat user baru karena tipe data tidak sesuai")
  else
    none

/-- Modelled from the spec: `DomainErrorTranslator.translate` returns the
translated client error when the table knows the message and the error
unchanged otherwise. -/
def translate (e : AppError) : AppError :=
  match e with
  | .clientError c m => .clientError c m
  | .plainError m =>
    match translations m with
    | some (c, m2) => .clientError c m2
    | none => .plainError m

/-- Fixed message of the generic 500 response. -/
def genericServerMessage : String := "terjadi kegagalan pada server kami"

/-- Modelled from the spec: the `onPreResponse` server extension (quoted in
part in TESTING_SOLUTIONS.md lines 108 to 117): translate the error, answer
the client error status code with status fail and its message when the
translation is a client error, and otherwise answer 500 with status error
and a fixed generic message that carries no internal detail. -/
def onPreResponse (e : AppError) : Nat × String × String :=
  match translate e with
  | .clientError c m => (c, "fail", m)
  | .plainError _ => (500, "error", genericServerMessage)

/-- C6: use cases never catch errors: every error a step raises is returned
by the use case unchanged and reaches the HTTP layer, which is the sole
translation point; every error the translator does not recognize is served
as a generic 500 whose body is the same fixed message for any two such
errors, so no internal detail leaks. -/
theorem errors_propagate_unrecognized_become_500 :
    (∀ (payload : RawRegisterUser) (e : String) (hash : String → String)
      (genId : String) (users : List User),
      mkRegisterUser payload = .error e →
      addUserExecute hash genId users payload = .error e)
    ∧ (∀ (hash : String → String) (genId : String) (users : List User)
      (payload : RawRegisterUser) (ru : RegisterUser) (e : String),
      mkRegisterUser payload = .ok ru →
      verifyAvailableUsername users ru.username = .error e →
      addUserExecute hash genId users payload = .error e)
    ∧ (∀ m, translations m = none →
      onPreResponse (.plainError m) = (500, "error", genericServerMessage))
    ∧ (∀ m₁ m₂, translations m₁ = none → translations m₂ = none →
      onPreResponse (.plainError m₁) = onPreResponse (.plainError m₂)) := by
  refine ⟨?_, ?_, ?_, ?_⟩
  · intro payload e hash genId users hmk
    unfold addUserExecute
    rw [hmk]
  · intro hash genId users payload ru e hmk hverify
    unfold addUserExecute
    simp only [hmk, hverify]
  · intro m hm
    simp only [onPreResponse, translate, hm]
  · intro m₁ m₂ h₁ h₂
    simp only [onPreResponse, translate, h₁, h₂]

theorem errors_propagate_unrecognized_become_500_witness :
    (mkRegisterUser { username := none, password := none, fullname := none }
      = .error "REGISTER_USER.NOT_CONTAIN_NEEDED_PROPERTY"
    ∧ addUserExecute sampleHash "user-1" [] { username := none, password := none, fullname := none }
      = .error "REGISTER_USER.NOT_CONTAIN_NEEDED_PROPERTY")
    ∧ (translations "UNRECOGNIZED_INTERNAL_FAILURE" = none
    ∧ onPreResponse (.plainError "UNRECOGNIZED_INTERNAL_FAILURE")
      = (500, "error", genericServerMessage))
    ∧ onPreResponse (.plainError "UNRECOGNIZED_INTERNAL_FAILURE")
      = onPreResponse (.plainError "ANOTHER_SECRET_DETAIL") := by
  refine ⟨⟨rfl, ?_⟩, ⟨rfl, ?_⟩, ?_⟩
  · exact errors_propagate_unrecognized_become_500.1
      { username := none, password := none, fullname := none }
      "REGISTER_USER.NOT_CONTAIN_NEEDED_PROPERTY" sampleHash "user-1" [] rfl
  · exact errors_propagate_unrecognized_become_500.2.2.1 "UNRECOGNIZED_INTERNAL_FAILURE" rfl
  · exact errors_propagate_unrecognized_become_500.2.2.2 "UNRECOGNIZED_INTERNAL_FAILURE"
      "ANOTHER_SECRET_DETAIL" rfl rfl

/-! ## Thread detail view and soft deletion -/

/-- Mask shown in place of the content of a soft-deleted comment. -/
def deletedCommentMask : String := "**komentar telah dihapus**"

/-- Mask shown in place of the content of a soft-deleted reply. -/
def deletedReplyMask : String := "**balasan telah dihapus**"

/-- Reply as rendered in the thread detail view. -/
structure DetailReplyView where
  id : String
  content : String
  deriving DecidableEq

/-- Comment as rendered in the thread detail view: id, displayed content,
like count and nested replies. -/
structure DetailCommentView where
  id : String
  content : String
  likeCount : Nat
  replies : List DetailReplyView
  deriving DecidableEq

/-- Modelled from the spec: rendering of one reply in the detail view; a
soft-deleted reply keeps its row but its content is hidden behind the
mask. -/
def replyView (r : ReplyRow) : DetailReplyView :=
  { id := r.id, content := if r.isDelete then deletedReplyMask else r.content }

/-- Modelled from the spec: rendering of one comment in the detail view with
its like count and nested replies; a soft-deleted comment keeps its row,
replies and likes, only its content is hidden behind the mask. -/
def commentView (likes : List LikeRow) (replies : List ReplyRow) (c : CommentRow) :
    DetailCommentView :=
  { id := c.id
    content := if c.isDelete then deletedCommentMask else c.content
    likeCount := likeCount likes c.id
    replies := (replies.filter (fun r => r.commentId == c.id)).map replyView }

/-- Modelled from the spec: the comment listing of `DetailThreadUseCase`
(absent from the sources): every comment row of the thread appears in the
detail view, soft-deleted ones included, each rendered by `commentView`. -/
def getThreadDetailComments (threadId : String) (comments : List CommentRow)
    (replies : List ReplyRow) (likes : List LikeRow) : List DetailCommentView :=
  (comments.filter (fun c => c.threadId == threadId)).map (commentView likes replies)

/-- C7: a soft-deleted comment still appears in the thread detail view under
its own id, its content replaced by the fixed mask, with its like count
computed from the retained like rows and each of its replies still rendered
inside it (a soft-deleted reply likewise keeps its row with masked content),
so referential integrity is preserved while the content is hidden. -/
theorem soft_deleted_content_hidden_row_retained
    (threadId : String) (comments : List CommentRow) (replies : List ReplyRow)
    (likes : List LikeRow) (c : CommentRow)
    (hc : c ∈ comments) (hth : c.threadId = threadId) (hdel : c.isDelete = true) :
    commentView likes replies c ∈ getThreadDetailComments threadId comments replies likes
    ∧ (commentView likes replies c).content = deletedCommentMask
    ∧ (commentView likes replies c).id = c.id
    ∧ (commentView likes replies c).likeCount = likeCount likes c.id
    ∧ (∀ r ∈ replies, r.commentId = c.id →
        replyView r ∈ (commentView likes replies c).replies)
    ∧ (∀ r : ReplyRow, r.isDelete = true → (replyView r).content = deletedReplyMask
        ∧ (replyView r).id = r.id) := by
  refine ⟨?_, ?_, rfl, rfl, ?_, ?_⟩
  · unfold getThreadDetailComments
    refine List.mem_map_of_mem (commentView likes replies) ?_
    rw [List.mem_filter]
    exact ⟨hc, by simp [hth]⟩
  · unfold commentView
    simp [hdel]
  · intro r hr hrc
    unfold commentView
    refine List.mem_map_of_mem replyView ?_
    rw [List.mem_filter]
    exact ⟨hr, by simp [hrc]⟩
  · intro r hrdel
    unfold replyView
    simp [hrdel]

theorem soft_deleted_content_hidden_row_retained_witness :
    (({ id := "comment-1", threadId := "thread-1", owner := "user-1", content := "visible", isDelete := true } : CommentRow)
        ∈ [({ id := "comment-1", threadId := "thread-1", owner := "user-1", content := "visible", isDelete := true } : CommentRow)]
    ∧ ({ id := "comment-1", threadId := "thread-1", owner := "user-1", content := "visible", isDelete := true } : CommentRow).threadId = "thread-1"
    ∧ ({ id := "comment-1", threadId := "thread-1", owner := "user-1", content := "visible", isDelete := true } : CommentRow).isDelete = true)
    ∧ (commentView [("comment-1", "user-2")] [{ id := "reply-1", commentId := "comment-1", owner := "user-3", content := "r", isDelete := false }]
        { id := "comment-1", threadId := "thread-1", owner := "user-1", content := "visible", isDelete := true }
      ∈ getThreadDetailComments "thread-1"
        [{ id := "comment-1", threadId := "thread-1", owner := "user-1", content := "visible", isDelete := true }]
        [{ id := "reply-1", commentId := "comment-1", owner := "user-3", content := "r", isDelete := false }]
        [("comment-1", "user-2")]
    ∧ (commentView [("comment-1", "user-2")] [{ id := "reply-1", commentId := "comment-1", owner := "user-3", content := "r", isDelete := false }]
        { id := "comment-1", threadId := "thread-1", owner := "user-1", content := "visible", isDelete := true }).content = deletedCommentMask
    ∧ (commentView [("comment-1", "user-2")] [{ id := "reply-1", commentId := "comment-1", owner := "user-3", content := "r", isDelete := false }]
        { id := "comment-1", threadId := "thread-1", owner := "user-1", content := "visible", isDelete := true }).id = "comment-1"
    ∧ (commentView [("comment-1", "user-2")] [{ id := "reply-1", commentId := "comment-1", owner := "user-3", content := "r", isDelete := false }]
        { id := "comment-1", threadId := "thread-1", owner := "user-1", content := "visible", isDelete := true }).likeCount
      = likeCount [("comment-1", "user-2")] "comment-1"
    ∧ (∀ r ∈ [({ id := "reply-1", commentId := "comment-1", owner := "user-3", content := "r", isDelete := false } : ReplyRow)], r.commentId = "comment-1" →
        replyView r ∈ (commentView [("comment-1", "user-2")] [{ id := "reply-1", commentId := "comment-1", owner := "user-3", content := "r", isDelete := false }]
          { id := "comment-1", threadId := "thread-1", owner := "user-1", content := "visible", isDelete := true }).replies)
    ∧ (∀ r : ReplyRow, r.isDelete = true → (replyView r).content = deletedReplyMask
        ∧ (replyView r).id = r.id)) :=
  ⟨⟨by decide, rfl, rfl⟩,
    soft_deleted_content_hidden_row_retained "thread-1"
      [{ id := "comment-1", threadId := "thread-1", owner := "user-1", content := "visible", isDelete := true }]
      [{ id := "reply-1", commentId := "comment-1", owner := "user-3", content := "r", isDelete := false }]
      [("comment-1", "user-2")]
      { id := "comment-1", threadId := "thread-1", owner := "user-1", content := "visible", isDelete := true }
      (by decide) rfl rfl⟩

end ForumApi
